import Mathlib

/-!
Verification development for the GeoJSON checker application
(`streamlit_app.py`).  The Python source is shallowly embedded below:

* coordinates are modelled as exact decimal numbers (`Dec`), which is the
  value space of coordinates parsed from GeoJSON text and stored in IEEE
  doubles, restricted to decimals of at most 15 significant digits (for
  which double round-tripping is exact);
* the pure geometry helpers `is_ccw` and `has_more_than_6_decimals` are
  translated directly from the source, with the behaviour of the library
  functions they call (`shapely.geometry.polygon.orient`, ring `is_ccw`,
  CPython float `repr`) modelled from the library semantics;
* the table builder `geojson_to_dataframe`, the filter loop of `main`,
  and the projector `filter_geojson` are embedded over an explicit model
  of the JSON values they receive.
-/

/-- Exact decimal number: value `m / 10 ^ e`.  This is the value space of
coordinates that appear in parsed GeoJSON (JSON number literals), and it is
preserved exactly by conversion to IEEE doubles for decimals of at most 15
significant digits. -/
structure Dec where
  m : Int
  e : Nat
deriving DecidableEq, Repr

/-- Rational value of a decimal. -/
def Dec.toQ (d : Dec) : ℚ := (d.m : ℚ) / 10 ^ d.e

/-- Exact product of two decimals. -/
def Dec.mul (a b : Dec) : Dec := ⟨a.m * b.m, a.e + b.e⟩

/-- Exact sum of two decimals (common-scale alignment). -/
def Dec.add (a b : Dec) : Dec :=
  ⟨a.m * 10 ^ (max a.e b.e - a.e) + b.m * 10 ^ (max a.e b.e - b.e), max a.e b.e⟩

/-- Exact difference of two decimals. -/
def Dec.sub (a b : Dec) : Dec := Dec.add a ⟨-b.m, b.e⟩

/-- Strip trailing zero decimal digits from a mantissa/scale pair, producing
the minimal-scale representation of the same decimal value. -/
def stripZeros : Int → Nat → Int × Nat
  | m, 0 => (m, 0)
  | m, e + 1 => if m % 10 = 0 then stripZeros (m / 10) e else (m, e + 1)

/-- Minimal-scale (canonical) form of a decimal. -/
def Dec.norm (d : Dec) : Dec :=
  ⟨(stripZeros d.m d.e).1, (stripZeros d.m d.e).2⟩

/-- Number of fractional digits of a decimal in canonical form (the scale of
its minimal-scale representation). -/
def Dec.fracDigits (d : Dec) : Nat := d.norm.e

/-- Fuel-driven base-10 digit counter (kernel-reducible). -/
def digitCountAux : Nat → Nat → Nat
  | 0, _ => 0
  | fuel + 1, n => if n = 0 then 0 else digitCountAux fuel (n / 10) + 1

/-- Number of base-10 digits of a natural number (`1` for `0`). -/
def digitCount (n : Nat) : Nat := if n = 0 then 1 else digitCountAux n n

/-- Models the number of characters that follow the first "." in CPython's
`str`/`repr` of the double holding the decimal `d` (`none` when the rendered
text contains no "."): fixed-point notation is used exactly for values `v`
with `10 ^ -4 ≤ |v| < 10 ^ 16` (and for zero), scientific notation
otherwise; scientific notation prints no "." when the mantissa has a single
digit, and prints the exponent with a sign and at least two digits.  Valid
for decimals of at most 15 significant digits, whose shortest double
round-trip representation is the decimal itself. -/
def pyFracLen (d : Dec) : Option Nat :=
  let n := d.norm.m
  let e := d.norm.e
  if n = 0 then some 1
  else
    let s := digitCount n.natAbs
    let E : Int := (s : Int) - 1 - (e : Int)
    if -4 ≤ E ∧ E < 16 then some (max e 1)
    else if s = 1 then none
    else some ((s - 1) + 2 + max 2 (digitCount E.natAbs))

/-- Twice the signed area of a ring (shoelace sum over consecutive vertex
pairs), computed exactly.  Models the signed-area computation used by
shapely's ring orientation test and by `orient`. -/
def shoelaceD : List (Dec × Dec) → Dec
  | (x1, y1) :: (x2, y2) :: rest =>
      Dec.add (Dec.sub (Dec.mul x1 y2) (Dec.mul x2 y1)) (shoelaceD ((x2, y2) :: rest))
  | _ => ⟨0, 0⟩

/-- Models shapely's `LinearRing.is_ccw`: the ring's signed area is
positive.  The sign of a decimal is the sign of its mantissa. -/
def ringIsCCW (r : List (Dec × Dec)) : Bool := 0 < (shoelaceD r).m

/-- A polygon: exterior ring plus interior rings (holes).  The embedded code
paths only ever inspect the exterior ring. -/
structure Polygon where
  exterior : List (Dec × Dec)
  holes : List (List (Dec × Dec))
deriving DecidableEq, Repr

/-- Geometry model: the geometry types the application distinguishes. -/
inductive Geometry
  | point (p : Dec × Dec)
  | lineString (cs : List (Dec × Dec))
  | polygon (p : Polygon)
  | multiPolygon (ps : List Polygon)
deriving DecidableEq

/-- Models `shapely.geometry.polygon.orient(polygon, sign=1.0)`: the
exterior ring is kept if its signed area is nonnegative and reversed
otherwise; each interior ring is kept if its signed area is nonpositive and
reversed otherwise. -/
def orientPoly (p : Polygon) : Polygon :=
  { exterior := if 0 ≤ (shoelaceD p.exterior).m then p.exterior else p.exterior.reverse
    holes := p.holes.map fun h => if (shoelaceD h).m ≤ 0 then h else h.reverse }

/-- Embedding of `is_ccw` (src/streamlit_app.py lines 29-38): for a Polygon,
`not orient(geometry, sign=1.0).exterior.is_ccw`; for a MultiPolygon, `any`
of the same test over the parts; `False` for other geometry types.  The
`except` branch returns `None` in Python; it is unreachable for the
structured geometry values of this model. -/
def is_ccw : Geometry → Option Bool
  | .polygon p => some (!(ringIsCCW (orientPoly p).exterior))
  | .multiPolygon ps => some (ps.any fun p => !(ringIsCCW (orientPoly p).exterior))
  | _ => some false

/-- Check of a single point by `has_more_than_6_decimals`:
`len(str(float(lon)).split(".")[1]) > 6 or len(str(float(lat)).split(".")[1]) > 6`.
`none` models the `IndexError` raised when the rendered float contains no
"." (then caught by the enclosing `except`); Python's `or` short-circuits,
so a longitude already over the limit returns `true` without inspecting the
latitude. -/
def checkPt (p : Dec × Dec) : Option Bool :=
  match pyFracLen p.1 with
  | none => none
  | some a =>
    if 6 < a then some true
    else
      match pyFracLen p.2 with
      | none => none
      | some b => some (decide (6 < b))

/-- Inner loop of `has_more_than_6_decimals` over the points of one ring. -/
def checkRing : List (Dec × Dec) → Option Bool
  | [] => some false
  | p :: rest =>
    match checkPt p with
    | none => none
    | some true => some true
    | some false => checkRing rest

/-- Embedding of `has_more_than_6_decimals` (src/streamlit_app.py lines
40-53): iterates the rings and their points, returns `True` as soon as a
coordinate renders with more than 6 characters after the ".", `False` when
the loops finish, and `None` when an exception escapes the loop body. -/
def has_more_than_6_decimals : List (List (Dec × Dec)) → Option Bool
  | [] => some false
  | r :: rest =>
    match checkRing r with
    | none => none
    | some true => some true
    | some false => has_more_than_6_decimals rest

/-- Embedding of `safe_check_decimals` (src/streamlit_app.py lines 93-101):
applies `has_more_than_6_decimals` to the exterior ring (Polygon) or to the
exterior rings of all parts (MultiPolygon), and returns `None` for any
other geometry type. -/
def safe_check_decimals : Geometry → Option Bool
  | .polygon p => has_more_than_6_decimals [p.exterior]
  | .multiPolygon ps => has_more_than_6_decimals (ps.map Polygon.exterior)
  | _ => none

/-- Property / cell values of the attribute table: a JSON scalar or the
null / NaN marker pandas uses for missing data. -/
inductive PVal
  | null
  | boolv (b : Bool)
  | num (q : ℚ)
  | str (s : String)
deriving DecidableEq

/-- Numeric value of a digit list read left to right (`none` when some
character is not a digit). -/
def digitsNat (cs : List Char) : Option Nat :=
  if cs.all Char.isDigit then
    some (cs.foldl (fun a c => a * 10 + (c.toNat - 48)) 0)
  else none

/-- Models the decimal-literal parsing performed by `pd.to_numeric` on
string cells: an optional sign, then digits with at most one ".", at least
one digit overall (exponent forms and surrounding whitespace are not
modelled; no theorem below depends on which strings parse). -/
def parseDec (s : String) : Option ℚ :=
  let cs := s.toList
  let signRest : ℚ × List Char :=
    match cs with
    | '-' :: t => (-1, t)
    | '+' :: t => (1, t)
    | t => (1, t)
  match signRest.2.splitOn '.' with
  | [ip] =>
    if ip = [] then none
    else (digitsNat ip).map fun v => signRest.1 * v
  | [ip, fp] =>
    if ip = [] ∧ fp = [] then none
    else
      match digitsNat ip, digitsNat fp with
      | some v, some w => some (signRest.1 * ((v : ℚ) + (w : ℚ) / 10 ^ fp.length))
      | _, _ => none
  | _ => none

/-- Models `pd.to_numeric(‹cell›, errors="coerce")` on one cell: numbers map
to themselves, booleans to 0/1, parseable strings to their value, and
everything else to NaN (`none`). -/
def toNumeric : PVal → Option ℚ
  | .null => none
  | .boolv b => some (if b then 1 else 0)
  | .num q => some q
  | .str s => parseDec s

/-- One attribute-table row: the property bag of the originating feature
plus the synthetic columns, as an association list.  Keys absent from a row
read as the null marker, matching the NaN fill pandas applies when a row
lacks one of the union-schema columns. -/
def Row : Type := List (String × PVal)

instance : DecidableEq Row := inferInstanceAs (DecidableEq (List (String × PVal)))

/-- Cell lookup in a row (missing key reads as null / NaN). -/
def getCell (r : Row) (c : String) : PVal :=
  ((r.find? fun kv => kv.1 == c).map fun kv => kv.2).getD .null

/-- The attribute table: rows tagged with their pandas index label.  A fresh
table has labels `0, 1, …`; filtering keeps labels, which is how the
dataframe row labels reach `filter_geojson`. -/
def Table : Type := List (Nat × Row)

instance : DecidableEq Table := inferInstanceAs (DecidableEq (List (Nat × Row)))

/-- Filter widget value for one column: a numeric-range slider value or the
list selected in a multiselect. -/
inductive FilterSpec
  | numericRange (lo hi : ℚ)
  | categoricalSet (vals : List PVal)
deriving DecidableEq

/-- One iteration of the filter loop of `main` (src/streamlit_app.py lines
257-267): a numeric range keeps the rows whose cell coerces to a number in
`[lo, hi]` (NaN compares false); a multiselect keeps the rows whose cell is
in the selection, except that an empty selection is skipped entirely
(`if filter_value:` is false for an empty list). -/
def applyFilter (t : Table) (col : String) (spec : FilterSpec) : Table :=
  match spec with
  | .numericRange lo hi =>
    t.filter fun r =>
      match toNumeric (getCell r.2 col) with
      | some q => decide (lo ≤ q) && decide (q ≤ hi)
      | none => false
  | .categoricalSet vals =>
    if vals.isEmpty then t
    else t.filter fun r => vals.contains (getCell r.2 col)

/-- The filter loop of `main`: applies the column filters in order to the
running dataframe. -/
def evaluate (t : Table) (specs : List (String × FilterSpec)) : Table :=
  specs.foldl (fun acc cs => applyFilter acc cs.1 cs.2) t

/-- Row predicate equivalent of one filter spec (used to state and prove
properties of `evaluate`). -/
def matchesSpec (col : String) (spec : FilterSpec) (row : Row) : Bool :=
  match spec with
  | .numericRange lo hi =>
    match toNumeric (getCell row col) with
    | some q => decide (lo ≤ q) && decide (q ≤ hi)
    | none => false
  | .categoricalSet vals => vals.isEmpty || vals.contains (getCell row col)

/-- Conjunction of all filter specs on one row. -/
def matchesAll (specs : List (String × FilterSpec)) (row : Row) : Bool :=
  specs.all fun cs => matchesSpec cs.1 cs.2 row

/-- Round-half-to-even to an integer, the rounding CPython's `round` applies
(modelled on exact rationals; binary-representation perturbation of exact
ties is below this model's resolution). -/
def roundHalfEven (q : ℚ) : ℤ :=
  if q - (⌊q⌋ : ℚ) < 1 / 2 then ⌊q⌋
  else if 1 / 2 < q - (⌊q⌋ : ℚ) then ⌊q⌋ + 1
  else if ⌊q⌋ % 2 = 0 then ⌊q⌋ else ⌊q⌋ + 1

/-- Models Python `round(q, 2)`. -/
def rnd2 (q : ℚ) : ℚ := ((roundHalfEven (q * 100) : ℤ) : ℚ) / 100

/-- The numeric values of a column that survive `pd.to_numeric(…, "coerce")`
followed by `dropna()`, in row order. -/
def parseVals (t : Table) (col : String) : List ℚ :=
  (t.map fun r => toNumeric (getCell r.2 col)).reduceOption

/-- Embedding of `create_numeric_filter` (src/streamlit_app.py lines
136-164), restricted to the bounds computation: coerce the column, drop
NaN, return `None` when nothing parses, otherwise take min and max, widen
the max by 1 when the two are equal, and round both to 2 decimal places.
The slider widget is then created with these bounds and initially returns
exactly this pair. -/
def create_numeric_filter (t : Table) (col : String) : Option (ℚ × ℚ) :=
  match parseVals t col with
  | [] => none
  | v :: vs =>
    let mn := vs.foldl min v
    let mx := vs.foldl max v
    let mx2 := if mn = mx then mx + 1 else mx
    some (rnd2 mn, rnd2 mx2)

/-- The `geometry` field of a raw feature, as the validity test and the
geometry parser of the builder see it: not a mapping (absent, JSON null, or
a scalar/sequence — `isinstance(…, dict)` is false), a mapping that
`shapely.geometry.shape` rejects, or a mapping that parses to a geometry. -/
inductive GeomJson
  | notMapping
  | badMapping
  | ok (g : Geometry)
deriving DecidableEq

/-- One element of the raw `features` sequence: either not a mapping (then
`feature.get` raises `AttributeError` and the element is skipped) or a
feature mapping carrying a `geometry` field and an optional property bag. -/
inductive FeatElem
  | notMapping
  | feat (geometry : GeomJson) (properties : Option (List (String × PVal)))
deriving DecidableEq

/-- The raw value handed to the builder and kept in session state: not a
mapping, a mapping without a `features` key, a mapping whose `features`
value cannot be iterated as a feature sequence, or a feature collection. -/
inductive GeoJson
  | notMapping
  | mappingNoFeatures
  | featuresNotSeq
  | collection (features : List FeatElem)
deriving DecidableEq

/-- Validity test applied to each raw feature
(`isinstance(feature.get("geometry"), dict)`, with `AttributeError` on
non-mapping elements caught and treated as skip): a feature is kept exactly
when it is a mapping whose `geometry` field is a mapping. -/
def validFeature : FeatElem → Bool
  | .notMapping => false
  | .feat .notMapping _ => false
  | .feat .badMapping _ => true
  | .feat (.ok _) _ => true

/-- Whether the geometry mapping of a (valid) feature parses: mirrors
`GeoDataFrame.from_features` succeeding on that feature. -/
def geomParses : FeatElem → Bool
  | .feat (.ok _) _ => true
  | _ => false

/-- Decimal rendered as fixed-point text (used by the WKT serialization of
the table; the exact float formatting of `to_wkt` is abstracted to exact
decimal rendering and is not relied on by any theorem). -/
def decStr (d : Dec) : String :=
  let n := d.norm
  let a := toString n.m.natAbs
  let a := String.mk (List.replicate (n.e + 1 - a.length) '0') ++ a
  (if n.m < 0 then "-" else "") ++
    (if n.e = 0 then a else a.dropRight n.e ++ "." ++ a.takeRight n.e)

/-- One WKT coordinate pair. -/
def wktPt (p : Dec × Dec) : String := decStr p.1 ++ " " ++ decStr p.2

/-- One WKT ring. -/
def wktRing (r : List (Dec × Dec)) : String :=
  "(" ++ String.intercalate ", " (r.map wktPt) ++ ")"

/-- WKT text of a geometry (the `geometry_wkt` column). -/
def wktOfGeom : Geometry → String
  | .point p => "POINT (" ++ wktPt p ++ ")"
  | .lineString cs => "LINESTRING " ++ wktRing cs
  | .polygon p =>
    "POLYGON (" ++ String.intercalate ", " ((p.exterior :: p.holes).map wktRing) ++ ")"
  | .multiPolygon ps =>
    "MULTIPOLYGON (" ++
      String.intercalate ", "
        (ps.map fun p =>
          "(" ++ String.intercalate ", " ((p.exterior :: p.holes).map wktRing) ++ ")") ++ ")"

/-- Cell holding a nullable boolean quality signal. -/
def pvalOfOptBool : Option Bool → PVal
  | none => .null
  | some b => .boolv b

/-- The geometry a parsed valid feature carries (placeholder point for the
unreachable non-parsing cases). -/
def featGeom : FeatElem → Geometry
  | .feat (.ok g) _ => g
  | _ => .point (⟨0, 0⟩, ⟨0, 0⟩)

/-- Row built for one valid feature (src/streamlit_app.py lines 79-103):
its property bag (`properties` defaulting to `{}` when absent) plus the
synthetic `geometry_wkt`, `CCW (true/false)` and `6dec (true/false)`
columns computed from the parsed geometry. -/
def buildRow (f : FeatElem) : Row :=
  (match f with | .feat _ (some props) => props | _ => []) ++
    [("geometry_wkt", .str (wktOfGeom (featGeom f))),
     ("CCW (true/false)", pvalOfOptBool (is_ccw (featGeom f))),
     ("6dec (true/false)", pvalOfOptBool (safe_check_decimals (featGeom f)))]

/-- Attribute table built from the valid features, one row per valid
feature in encounter order, labelled with the fresh range index pandas
assigns (`0, 1, …` over the *valid-feature* sequence). -/
def mkTable (valids : List FeatElem) : Table :=
  (valids.map buildRow).enum

/-- Outcome of `geojson_to_dataframe`: the distinct failure messages are
`InvalidFormat` ("Invalid GeoJSON format"), `NoValidFeatures` ("No valid
features found in GeoJSON"), and `otherError` for any other exception the
enclosing `try` converts into an error report (all three return `None` to
the caller after `st.error`). -/
inductive BuildResult
  | invalidFormat
  | noValidFeatures
  | otherError
  | table (t : Table)
deriving DecidableEq

/-- Embedding of `geojson_to_dataframe` (src/streamlit_app.py lines 55-108)
together with its effect on the `original_geojson` session slot: the
top-level shape check runs first; the session slot is assigned the raw
input immediately after that check (line 62), before any feature is
validated; a non-iterable `features` value then fails with a `TypeError`;
an empty valid-feature list raises `NoValidFeatures`; a valid feature whose
geometry mapping does not parse makes `GeoDataFrame.from_features` raise;
otherwise the table is built over the valid features. -/
def geojson_to_dataframe_run (g : GeoJson) (slot : Option GeoJson) :
    BuildResult × Option GeoJson :=
  match g with
  | .notMapping => (.invalidFormat, slot)
  | .mappingNoFeatures => (.invalidFormat, slot)
  | .featuresNotSeq => (.otherError, some g)
  | .collection fs =>
    let valids := fs.filter validFeature
    if valids.isEmpty then (.noValidFeatures, some g)
    else if valids.any fun f => !geomParses f then (.otherError, some g)
    else (.table (mkTable valids), some g)

/-- Pure view of `geojson_to_dataframe`: the build outcome alone. -/
def geojson_to_dataframe (g : GeoJson) : BuildResult :=
  (geojson_to_dataframe_run g none).1

/-- Embedding of `filter_geojson` (src/streamlit_app.py lines 110-134): for
a raw value that is falsy, has no `features` key, or whose `features` value
cannot be enumerated, every path returns `None` (directly or through the
enclosing `except`); otherwise the features whose *raw array position* is
in the given dataframe-index set are kept, in array order, and wrapped in a
fresh FeatureCollection (the constant `"type"` tag is omitted from the
model). -/
def filter_geojson (orig : GeoJson) (idxs : List Nat) : Option (List FeatElem) :=
  match orig with
  | .collection fs => some ((fs.enum.filter fun p => idxs.contains p.1).map fun p => p.2)
  | _ => none

/-! ### Helper lemmas about the filter engine -/

/-- Each loop iteration is a row filter by the corresponding predicate. -/
theorem applyFilter_eq_filter (t : Table) (col : String) (spec : FilterSpec) :
    applyFilter t col spec = t.filter fun r => matchesSpec col spec r.2 := by
  cases spec with
  | numericRange lo hi => rfl
  | categoricalSet vals =>
    cases vals with
    | nil => simp [applyFilter, matchesSpec]
    | cons v vs => rfl

/-- The whole filter loop is a single row filter by the conjunction of the
specs. -/
theorem evaluate_eq_filter (t : Table) (specs : List (String × FilterSpec)) :
    evaluate t specs = t.filter fun r => matchesAll specs r.2 := by
  induction specs generalizing t with
  | nil => simp [evaluate, matchesAll]
  | cons cs rest ih =>
    have h1 : evaluate t (cs :: rest) = evaluate (applyFilter t cs.1 cs.2) rest := rfl
    rw [h1, ih, applyFilter_eq_filter, List.filter_filter]
    apply List.filter_congr
    intro r _
    simp [matchesAll, Bool.and_comm]

/-! ### Helper lemmas about list minima / maxima via foldl -/

/-- Folded minimum is at most the initial value. -/
theorem foldl_min_le_init (l : List ℚ) : ∀ v : ℚ, l.foldl min v ≤ v := by
  induction l with
  | nil => intro v; exact le_refl v
  | cons a l ih => intro v; exact le_trans (ih (min v a)) (min_le_left v a)

/-- Folded minimum is at most every list element. -/
theorem foldl_min_le_of_mem (l : List ℚ) : ∀ (v x : ℚ), x ∈ l → l.foldl min v ≤ x := by
  induction l with
  | nil => intro v x hx; exact absurd hx (List.not_mem_nil x)
  | cons a l ih =>
    intro v x hx
    rcases List.mem_cons.mp hx with h | h
    · subst h; exact le_trans (foldl_min_le_init l (min v x)) (min_le_right v x)
    · exact ih (min v a) x h

/-- Folded minimum is the initial value or a list element. -/
theorem foldl_min_mem (l : List ℚ) : ∀ v : ℚ, l.foldl min v = v ∨ l.foldl min v ∈ l := by
  induction l with
  | nil => intro v; exact Or.inl rfl
  | cons a l ih =>
    intro v
    rcases ih (min v a) with h | h
    · rcases min_choice v a with hv | ha
      · exact Or.inl (by rw [List.foldl_cons, h, hv])
      · exact Or.inr (by rw [List.foldl_cons, h, ha]; exact List.mem_cons_self a l)
    · exact Or.inr (List.mem_cons_of_mem a h)

/-- Folded maximum is at least the initial value. -/
theorem le_foldl_max_init (l : List ℚ) : ∀ v : ℚ, v ≤ l.foldl max v := by
  induction l with
  | nil => intro v; exact le_refl v
  | cons a l ih => intro v; exact le_trans (le_max_left v a) (ih (max v a))

/-- Folded maximum is at least every list element. -/
theorem le_foldl_max_of_mem (l : List ℚ) : ∀ (v x : ℚ), x ∈ l → x ≤ l.foldl max v := by
  induction l with
  | nil => intro v x hx; exact absurd hx (List.not_mem_nil x)
  | cons a l ih =>
    intro v x hx
    rcases List.mem_cons.mp hx with h | h
    · subst h; exact le_trans (le_max_right v x) (le_foldl_max_init l (max v x))
    · exact ih (max v a) x h

/-- Folded maximum is the initial value or a list element. -/
theorem foldl_max_mem (l : List ℚ) : ∀ v : ℚ, l.foldl max v = v ∨ l.foldl max v ∈ l := by
  induction l with
  | nil => intro v; exact Or.inl rfl
  | cons a l ih =>
    intro v
    rcases ih (max v a) with h | h
    · rcases max_choice v a with hv | ha
      · exact Or.inl (by rw [List.foldl_cons, h, hv])
      · exact Or.inr (by rw [List.foldl_cons, h, ha]; exact List.mem_cons_self a l)
    · exact Or.inr (List.mem_cons_of_mem a h)

/-- Shifting by one hundred commutes with round-half-to-even. -/
theorem roundHalfEven_add_hundred (x : ℚ) :
    roundHalfEven (x + 100) = roundHalfEven x + 100 := by
  have hf : ⌊x + (100 : ℚ)⌋ = ⌊x⌋ + 100 := by
    exact_mod_cast Int.floor_add_int x 100
  have hr : x + 100 - ((⌊x⌋ + 100 : ℤ) : ℚ) = x - (⌊x⌋ : ℚ) := by push_cast; ring
  have hpar : (⌊x⌋ + 100) % 2 = ⌊x⌋ % 2 := by omega
  unfold roundHalfEven
  rw [hf, hr, hpar]
  split_ifs <;> omega

/-- Rounding to two decimals commutes with adding one. -/
theorem rnd2_add_one (q : ℚ) : rnd2 (q + 1) = rnd2 q + 1 := by
  unfold rnd2
  have h : (q + 1) * 100 = q * 100 + 100 := by ring
  rw [h, roundHalfEven_add_hundred]
  push_cast
  ring

/-! ### Claim theorems -/

/-- C6: for every table and every column, evaluating a CategoricalSet
filter spec with an empty selection is a no-op — both the single loop
iteration and the whole filter loop return the full table unchanged (an
empty selection means unconstrained, not "match nothing"). -/
theorem evaluate_empty_categorical_noop (t : Table) (col : String) :
    applyFilter t col (.categoricalSet []) = t ∧
    evaluate t [(col, .categoricalSet [])] = t :=
  ⟨rfl, rfl⟩

/-- C8: evaluate is idempotent — applying the filter loop to its own output
with the same specs returns that output unchanged (same rows, same
order). -/
theorem evaluate_idempotent (t : Table) (specs : List (String × FilterSpec)) :
    evaluate (evaluate t specs) specs = evaluate t specs := by
  have h := evaluate_eq_filter t specs
  rw [h, evaluate_eq_filter, List.filter_filter]
  apply List.filter_congr
  intro r _
  simp

/-- C10: filtering never rewrites data — the filtered table is a sublist of
the input table, so every surviving row (with its index label) is
cell-for-cell the original row, in the original relative order; in
particular numeric filtering never replaces a column by its numeric
coercion. -/
theorem evaluate_rows_sublist (t : Table) (specs : List (String × FilterSpec)) :
    List.Sublist (evaluate t specs) t := by
  rw [evaluate_eq_filter]
  exact List.filter_sublist t

/-- C7: for every column with at least one parseable value, the inferred
slider bounds are the minimum and maximum of the parseable values, each
rounded to 2 decimal places, except that when the raw minimum and maximum
coincide the upper bound is widened by exactly 1. -/
theorem create_numeric_filter_bounds (t : Table) (col : String)
    (h : parseVals t col ≠ []) :
    ∃ mn mx : ℚ, mn ∈ parseVals t col ∧ mx ∈ parseVals t col ∧
      (∀ v ∈ parseVals t col, mn ≤ v ∧ v ≤ mx) ∧
      create_numeric_filter t col =
        some (rnd2 mn, if mn = mx then rnd2 mn + 1 else rnd2 mx) := by
  rcases hpv : parseVals t col with _ | ⟨v, vs⟩
  · exact absurd hpv h
  · refine ⟨vs.foldl min v, vs.foldl max v, ?_, ?_, ?_, ?_⟩
    · rcases foldl_min_mem vs v with h1 | h1
      · rw [h1]; exact List.mem_cons_self v vs
      · exact List.mem_cons_of_mem v h1
    · rcases foldl_max_mem vs v with h1 | h1
      · rw [h1]; exact List.mem_cons_self v vs
      · exact List.mem_cons_of_mem v h1
    · intro x hx
      rcases List.mem_cons.mp hx with h1 | h1
      · subst h1
        exact ⟨foldl_min_le_init vs x, le_foldl_max_init vs x⟩
      · exact ⟨foldl_min_le_of_mem vs v x h1, le_foldl_max_of_mem vs v x h1⟩
    · by_cases heq : vs.foldl min v = vs.foldl max v
      · simp only [create_numeric_filter, hpv, heq, if_pos rfl, if_true]
        rw [rnd2_add_one]
      · simp only [create_numeric_filter, hpv]
        rw [if_neg heq, if_neg heq]

/-- Witness for C7 at a concrete two-row table. -/
theorem create_numeric_filter_bounds_witness :
    parseVals [(0, [("a", PVal.num 3)]), (1, [("a", PVal.num 5)])] "a" ≠ [] ∧
    (∃ mn mx : ℚ,
      mn ∈ parseVals [(0, [("a", PVal.num 3)]), (1, [("a", PVal.num 5)])] "a" ∧
      mx ∈ parseVals [(0, [("a", PVal.num 3)]), (1, [("a", PVal.num 5)])] "a" ∧
      (∀ v ∈ parseVals [(0, [("a", PVal.num 3)]), (1, [("a", PVal.num 5)])] "a",
        mn ≤ v ∧ v ≤ mx) ∧
      create_numeric_filter [(0, [("a", PVal.num 3)]), (1, [("a", PVal.num 5)])] "a" =
        some (rnd2 mn, if mn = mx then rnd2 mn + 1 else rnd2 mx)) :=
  ⟨by simp [parseVals, toNumeric, getCell],
   create_numeric_filter_bounds [(0, [("a", PVal.num 3)]), (1, [("a", PVal.num 5)])] "a"
     (by simp [parseVals, toNumeric, getCell])⟩

/-! ### Concrete fixtures for the evaluation theorems -/

/-- Square ring traversed clockwise (shoelace sum `-2`), the exterior ring
of the spec's own example scenario. -/
def cwSquareRing : List (Dec × Dec) :=
  [(⟨0, 0⟩, ⟨0, 0⟩), (⟨0, 0⟩, ⟨1, 0⟩), (⟨1, 0⟩, ⟨1, 0⟩), (⟨1, 0⟩, ⟨0, 0⟩), (⟨0, 0⟩, ⟨0, 0⟩)]

/-- Square ring whose first corner sits at `(0.00001, 0.00001)`: every
coordinate has at most five fractional digits. -/
def smallCoordRing : List (Dec × Dec) :=
  [(⟨1, 5⟩, ⟨1, 5⟩), (⟨1, 5⟩, ⟨1, 0⟩), (⟨1, 0⟩, ⟨1, 0⟩), (⟨1, 0⟩, ⟨1, 5⟩), (⟨1, 5⟩, ⟨1, 5⟩)]

/-- A valid feature. -/
def featA : FeatElem :=
  .feat (.ok (.point (⟨0, 0⟩, ⟨0, 0⟩))) (some [("id", .str "a")])

/-- An invalid feature: `geometry` is null (not a mapping). -/
def featB : FeatElem := .feat .notMapping (some [("id", .str "b")])

/-- A second valid feature, distinguishable from the others. -/
def featC : FeatElem :=
  .feat (.ok (.point (⟨1, 0⟩, ⟨1, 0⟩))) (some [("id", .str "c")])

/-- C1: the winding flag is broken — on the clockwise square (negative
signed area, last conjunct) `is_ccw` returns `false`, not the `true` the
claim requires for a clockwise exterior ring, because the polygon is
re-oriented to CCW before the test; the MultiPolygon built from the same
part also returns `false`. -/
theorem is_ccw_false_on_cw_exterior :
    is_ccw (.polygon ⟨cwSquareRing, []⟩) = some false ∧
    is_ccw (.multiPolygon [⟨cwSquareRing, []⟩]) = some false ∧
    (shoelaceD cwSquareRing).m < 0 ∧ Dec.toQ (shoelaceD cwSquareRing) < 0 := by
  refine ⟨by decide, by decide, by decide, ?_⟩
  have h : shoelaceD cwSquareRing = ⟨-2, 0⟩ := by decide
  rw [h]
  norm_num [Dec.toQ]

/-- C4: the precision flag is broken for small coordinates — on a polygon
whose coordinates all have at most five fractional digits (second
conjunct), `safe_check_decimals` returns `None` instead of the `false` the
claim requires, because `str(float(0.00001))` is the scientific form
`"1e-05"` with no ".", so the split raises `IndexError`. -/
theorem safe_check_decimals_small_coordinate_none :
    safe_check_decimals (.polygon ⟨smallCoordRing, []⟩) = none ∧
    smallCoordRing.all
      (fun p => decide (p.1.fracDigits ≤ 6) && decide (p.2.fracDigits ≤ 6)) = true := by
  decide

/-- C2: the projector mistranslates dataframe row labels — on the
collection `[featA, featB, featC]` with `featB` invalid, the table rows are
labelled `0, 1` (first conjunct) and correspond to `[featA, featC]` (third
conjunct), but projecting the full label set `{0, 1}` returns
`[featA, featB]`: the invalid feature is exported and the valid `featC` is
dropped, so the result is not the valid subset. -/
theorem filter_geojson_misaligned_on_invalid_feature :
    (mkTable ([featA, featB, featC].filter validFeature)).map Prod.fst = [0, 1] ∧
    filter_geojson (.collection [featA, featB, featC]) [0, 1] = some [featA, featB] ∧
    [featA, featB, featC].filter validFeature = [featA, featC] ∧
    ([featA, featB] : List FeatElem) ≠ [featA, featC] := by
  refine ⟨by decide, by decide, by decide, by decide⟩

/-- C3 counterexample: on a well-formed collection with an empty selected
index set, `filter_geojson` returns an empty feature collection, not
`None`. -/
theorem filter_geojson_empty_selection_not_null :
    filter_geojson (.collection [featA]) [] = some [] ∧
    filter_geojson (.collection [featA]) [] ≠ none := by
  decide

/-- C3 amended: `filter_geojson` returns `None` exactly when the original
value is not a feature collection (absent, falsy, no `features` key, or a
non-enumerable `features` value); on a well-formed collection an empty
selection yields an empty feature collection instead of `None`. -/
theorem filter_geojson_none_characterization (orig : GeoJson) (idxs : List Nat) :
    (filter_geojson orig idxs = none ↔ ∀ fs, orig ≠ .collection fs) ∧
    (∀ fs, orig = .collection fs → filter_geojson orig [] = some []) := by
  constructor
  · cases orig <;> simp [filter_geojson]
  · intro fs hfs
    subst hfs
    simp [filter_geojson]

/-- Witness for C3 at a concrete well-formed collection. -/
theorem filter_geojson_none_characterization_witness :
    filter_geojson (.collection [featA]) [] = some [] :=
  (filter_geojson_none_characterization (.collection [featA]) [3]).2 [featA] rfl

/-- C5 counterexample: a mapping whose `features` value is not a sequence
does not fail with `InvalidFormat` (the top-level check only tests key
presence); it fails with the generic conversion error instead. -/
theorem geojson_to_dataframe_nonsequence_not_invalid_format :
    geojson_to_dataframe .featuresNotSeq = .otherError ∧
    geojson_to_dataframe .featuresNotSeq ≠ .invalidFormat := by
  decide

/-- C5 amended: the build fails with `InvalidFormat` iff the input is not a
mapping or lacks a `features` key (a mapping whose `features` value is not
a sequence fails with a generic error instead); on a feature collection it
fails with `NoValidFeatures` iff no feature has a mapping `geometry`; and
when at least one feature is valid and every valid feature's geometry
parses, it returns the table with exactly one row per valid feature in
encounter order (a valid feature whose geometry mapping does not parse
also aborts with a generic error). -/
theorem geojson_to_dataframe_characterization (g : GeoJson) :
    (geojson_to_dataframe g = .invalidFormat ↔
      g = .notMapping ∨ g = .mappingNoFeatures) ∧
    (∀ fs, g = .collection fs →
      ((geojson_to_dataframe g = .noValidFeatures ↔ fs.filter validFeature = []) ∧
       (fs.filter validFeature ≠ [] → (fs.filter validFeature).all geomParses = true →
         geojson_to_dataframe g = .table (mkTable (fs.filter validFeature)) ∧
         (mkTable (fs.filter validFeature)).length =
           (fs.filter validFeature).length))) := by
  cases g with
  | notMapping =>
    exact ⟨by simp [geojson_to_dataframe, geojson_to_dataframe_run],
           fun fs h => GeoJson.noConfusion h⟩
  | mappingNoFeatures =>
    exact ⟨by simp [geojson_to_dataframe, geojson_to_dataframe_run],
           fun fs h => GeoJson.noConfusion h⟩
  | featuresNotSeq =>
    exact ⟨by simp [geojson_to_dataframe, geojson_to_dataframe_run],
           fun fs h => GeoJson.noConfusion h⟩
  | collection fs =>
    constructor
    · simp only [geojson_to_dataframe, geojson_to_dataframe_run]
      split_ifs <;> simp
    · intro fs2 h
      injection h with h2
      subst h2
      constructor
      · simp only [geojson_to_dataframe, geojson_to_dataframe_run]
        split_ifs with h1 h2
        · simp only [List.isEmpty_iff] at h1
          simp [h1]
        · simp only [List.isEmpty_iff] at h1
          simp [h1]
        · simp only [List.isEmpty_iff] at h1
          simp [h1]
      · intro hne hall
        simp only [geojson_to_dataframe, geojson_to_dataframe_run]
        split_ifs with h1 h2
        · simp only [List.isEmpty_iff] at h1
          exact absurd h1 hne
        · exfalso
          rcases List.any_eq_true.mp h2 with ⟨f, hf, hbad⟩
          have := List.all_eq_true.mp hall f hf
          simp [this] at hbad
        · exact ⟨rfl, by simp [mkTable]⟩

/-- Witness for C5 at a concrete collection with one valid and one invalid
feature. -/
theorem geojson_to_dataframe_characterization_witness :
    geojson_to_dataframe (.collection [featA, featB]) =
      .table (mkTable ([featA, featB].filter validFeature)) ∧
    (mkTable ([featA, featB].filter validFeature)).length =
      ([featA, featB].filter validFeature).length :=
  ((geojson_to_dataframe_characterization (.collection [featA, featB])).2
    [featA, featB] rfl).2 (by decide) (by decide)

/-- The session collection stored before this load attempt. -/
def oldCollection : GeoJson := .collection [featA]

/-- A load attempt that passes the shape check but has no valid feature. -/
def noValidInput : GeoJson := .collection [featB]

/-- C9 counterexample: an input failing with `NoValidFeatures` has already
replaced the stored original collection — the slot ends up holding the new
(unusable) input, not the previous collection. -/
theorem session_slot_replaced_despite_no_valid_features :
    (geojson_to_dataframe_run noValidInput (some oldCollection)).1 = .noValidFeatures ∧
    (geojson_to_dataframe_run noValidInput (some oldCollection)).2 = some noValidInput ∧
    noValidInput ≠ oldCollection := by
  decide

/-- C9 amended: the stored original collection is untouched exactly by the
failures raised before the assignment, i.e. `InvalidFormat`; any input that
passes the top-level shape check — including inputs that then fail with
`NoValidFeatures` or a generic error — replaces the stored collection
before feature validation completes. -/
theorem session_slot_characterization (g : GeoJson) (slot : Option GeoJson) :
    ((geojson_to_dataframe_run g slot).1 = .invalidFormat →
      (geojson_to_dataframe_run g slot).2 = slot) ∧
    (g ≠ .notMapping → g ≠ .mappingNoFeatures →
      (geojson_to_dataframe_run g slot).2 = some g) := by
  cases g with
  | notMapping => exact ⟨fun _ => rfl, fun h _ => absurd rfl h⟩
  | mappingNoFeatures => exact ⟨fun _ => rfl, fun _ h => absurd rfl h⟩
  | featuresNotSeq => exact ⟨fun h => BuildResult.noConfusion h, fun _ _ => rfl⟩
  | collection fs =>
    constructor
    · intro h
      exfalso
      simp only [geojson_to_dataframe_run] at h
      split_ifs at h
    · intro _ _
      simp only [geojson_to_dataframe_run]
      split_ifs <;> rfl

/-- Witness for C9: the amended replacement rule evaluated on the
`NoValidFeatures` input. -/
theorem session_slot_characterization_witness :
    (geojson_to_dataframe_run noValidInput (some oldCollection)).2 = some noValidInput :=
  (session_slot_characterization noValidInput (some oldCollection)).2
    (by decide) (by decide)
